import Mathlib

/-!
Verification of the liveness-capture page of the GTD_ADMIN repository
(source: the `LivenessPage` component). The guidance engine, capture
state machine, frame sequencer and submission flow are embedded as pure
Lean functions over explicit state; machine reals are modelled as `ℚ`
(the source arithmetic on face ratios and overlay sizes is exact in ℚ),
wall-clock time as milliseconds in `ℕ`, and nullable fields as `Option`.
-/

namespace Liveness

/-- `'too-far' | 'good' | 'too-close'` from the source's `faceDistance` state. -/
inductive Distance where
  | tooFar
  | good
  | tooClose
deriving DecidableEq, Repr

/-- `'white' | 'green' | 'red'` from the source's `borderColor` state. -/
inductive BorderColor where
  | white
  | green
  | red
deriving DecidableEq, Repr

/-- `'input' | 'camera' | 'processing' | 'result'` from the source's `step` state. -/
inductive Step where
  | input
  | camera
  | processing
  | result
deriving DecidableEq, Repr

/-- `'passive' | 'active'` method selector. -/
inductive Method where
  | passive
  | active
deriving DecidableEq, Repr

/-- The `method` field of a `LivenessResult` is a plain string in the source. -/
def Method.toString : Method → String
  | .passive => "passive"
  | .active => "active"

/-- `interface LivenessSession`. -/
structure LivenessSession where
  sessionId : String
  nik : String
  method : Method
  challenges : Option (List String)
  expiresAt : String
deriving DecidableEq, Repr

/-- `interface LivenessResult`: `file?: { face: string }` is modelled as the
optional face reference string. -/
structure LivenessResult where
  sessionId : String
  nik : String
  method : String
  isLive : Bool
  confidence : ℚ
  file : Option String
  failureReason : Option String
  errorCode : Option String
deriving DecidableEq, Repr

/-- `interface Frame`: `{ timestamp, action?, image }` (the optional `faceBox`
field is never populated by `captureFrame` and is omitted). -/
structure Frame where
  timestamp : ℕ
  action : Option String
  image : String
deriving DecidableEq, Repr

/-- A BlazeFace prediction: `topLeft` and `bottomRight` corner coordinates,
as consumed by `detectFace`. -/
structure BlazePrediction where
  topLeft : ℚ × ℚ
  bottomRight : ℚ × ℚ
deriving DecidableEq, Repr

/-- The per-tick input of `detectFace`: the detection-canvas dimensions
(set to the video dimensions) and the prediction list returned by
`model.estimateFaces`. -/
structure DetectInput where
  canvasWidth : ℚ
  canvasHeight : ℚ
  predictions : List BlazePrediction
deriving DecidableEq, Repr

/-- The mutable state of the `LivenessPage` component: the `useState` cells
together with `streamRef` (modelled as whether a stream is held),
`detectionIntervalRef` (whether the detection interval is pending) and
`framesRef`. -/
structure LivenessState where
  nik : String
  method : Method
  session : Option LivenessSession
  result : Option LivenessResult
  step : Step
  error : Option String
  cameraReady : Bool
  countdown : Option ℕ
  currentChallenge : Option String
  challengeIndex : ℕ
  instruction : String
  faceDetected : Bool
  faceCount : ℕ
  faceDistance : Option Distance
  ovalSize : ℚ
  borderColor : BorderColor
  isCapturing : Bool
  streamActive : Bool
  detectionIntervalActive : Bool
  frames : List Frame
deriving DecidableEq, Repr

/-- `faceRatio = (width × height) / (canvas.width × canvas.height)` for a
single prediction, with `width = bottomRight.x − topLeft.x` and
`height = bottomRight.y − topLeft.y`, as computed in `detectFace`. -/
def faceRatio (inp : DetectInput) (face : BlazePrediction) : ℚ :=
  let width := face.bottomRight.1 - face.topLeft.1
  let height := face.bottomRight.2 - face.topLeft.2
  (width * height) / (inp.canvasWidth * inp.canvasHeight)

/-- State update performed by one run of `detectFace`:
zero predictions clear `faceDetected`/`faceCount`/`faceDistance` and return;
more than one prediction set only `faceCount`, a red border and the
"only one face" instruction and return; exactly one prediction classifies
the distance from `faceRatio` and sets the guidance fields. -/
def detectFace (inp : DetectInput) (s : LivenessState) : LivenessState :=
  match inp.predictions with
  | [] =>
      { s with faceDetected := false, faceCount := 0, faceDistance := none }
  | [face] =>
      let r := faceRatio inp face
      if r < 15/100 then
        { s with instruction := "Terlalu jauh, dekatkan wajah Anda",
                 borderColor := .white,
                 faceDetected := true, faceCount := 1,
                 faceDistance := some .tooFar, ovalSize := 60 }
      else if r > 35/100 then
        { s with instruction := "Terlalu dekat, mundur sedikit",
                 borderColor := .white,
                 faceDetected := true, faceCount := 1,
                 faceDistance := some .tooClose, ovalSize := 85 }
      else
        { s with instruction := "Wajah terdeteksi",
                 borderColor := .green,
                 faceDetected := true, faceCount := 1,
                 faceDistance := some .good,
                 ovalSize := 60 + (r - 15/100) / (2/10) * 25 }
  | _ :: _ :: _ =>
      { s with faceCount := inp.predictions.length,
               borderColor := .red,
               instruction := "Pastikan hanya satu wajah dalam bingkai" }

/-- `stopCamera`: stops the stream tracks and drops the stream reference,
clears the detection interval, and resets `cameraReady` and `faceDetected`. -/
def stopCamera (s : LivenessState) : LivenessState :=
  { s with streamActive := false, detectionIntervalActive := false,
           cameraReady := false, faceDetected := false }

/-- `handleReset`: stops the camera and restores the initial component
state (session, result, error, step, frame buffer, challenge cursor,
guidance state, capture flag). -/
def handleReset (s : LivenessState) : LivenessState :=
  let s1 := stopCamera s
  { s1 with session := none, result := none, error := none, step := .input,
            frames := [], challengeIndex := 0, currentChallenge := none,
            faceDetected := false, faceCount := 0, faceDistance := none,
            ovalSize := 60, borderColor := .white, isCapturing := false }

/-- The guidance-engine gate of `startVerification`: capture may proceed
only when `faceDetected && faceDistance === 'good' && faceCount === 1`. -/
def captureEligible (s : LivenessState) : Bool :=
  s.faceDetected && s.faceDistance == some Distance.good && s.faceCount == 1

/-- The synchronous entry of `startVerification`: returns silently without a
session; sets an error and returns when the eligibility gate fails; otherwise
marks capture in progress, shows the "get ready" instruction and starts the
3-tick countdown (the capture continuation is `runPassiveVerification` /
`runActiveVerification`). -/
def startVerification (s : LivenessState) : LivenessState :=
  match s.session with
  | none => s
  | some _ =>
      if ¬ captureEligible s then
        { s with
          error := some "Pastikan wajah terdeteksi dengan baik dan posisi tepat di tengah" }
      else
        { s with isCapturing := true, instruction := "Bersiap...",
                 countdown := some 3 }

/-- The environment of `captureFrame`: at each time (in ms) either the encoded
still image the canvas produces, or `none` when the video/canvas references
are unavailable and the capture returns null. -/
structure CaptureEnv where
  capture : ℕ → Option String

/-- `captureFrame(action?)`: on success, a `Frame` stamped with the current
time and the optional challenge tag; `none` when the capture fails. -/
def captureFrame (env : CaptureEnv) (now : ℕ) (action : Option String) :
    Option Frame :=
  match env.capture now with
  | some img => some { timestamp := now, action := action, image := img }
  | none => none

/-- The loop of `runPassiveVerification`: `n` iterations, each capturing one
untagged frame (pushed only on success) and then waiting 400 ms. Returns the
frames collected, in order, together with the elapsed-to time. -/
def passiveCaptureLoop (env : CaptureEnv) (t : ℕ) : ℕ → List Frame × ℕ
  | 0 => ([], t)
  | n + 1 =>
      let rest := passiveCaptureLoop env (t + 400) n
      match captureFrame env t none with
      | some f => (f :: rest.1, rest.2)
      | none => rest

/-- `runPassiveVerification`: clears the frame buffer, then captures 5
untagged frames at 400 ms spacing; the returned list is the resulting
frame buffer and the returned time is when the loop hands off to
`submitVerification`. -/
def runPassiveVerification (env : CaptureEnv) (t : ℕ) : List Frame × ℕ :=
  passiveCaptureLoop env t 5

/-- The loop of `runActiveVerification`: for each challenge in session order,
the challenge instruction is displayed, then 2.5 s pass, then one frame
tagged with the challenge is captured (pushed only on success). -/
def activeCaptureLoop (env : CaptureEnv) (t : ℕ) :
    List String → List Frame × ℕ
  | [] => ([], t)
  | c :: cs =>
      let t1 := t + 2500
      let rest := activeCaptureLoop env t1 cs
      match captureFrame env t1 (some c) with
      | some f => (f :: rest.1, rest.2)
      | none => rest

/-- `runActiveVerification`: clears the frame buffer, then runs the challenge
loop over the session's challenge list in order. -/
def runActiveVerification (env : CaptureEnv) (t : ℕ)
    (challenges : List String) : List Frame × ℕ :=
  activeCaptureLoop env t challenges

/-- Outcome of the `fetch` to `/v1/identity/liveness/verify`:
`success` carries the parsed `data.data`; `serverFailure` a response with
`success: false` (its optional `message` and `error.code`); `networkFailure`
a thrown transport/parse error with its optional message. -/
inductive SubmitOutcome where
  | success (data : LivenessResult)
  | serverFailure (message : Option String) (code : Option String)
  | networkFailure (message : Option String)
deriving DecidableEq, Repr

/-- `submitVerification`: with no session or an empty frame buffer it sets an
error and returns (no request made — the second component records whether the
submit request was issued). Otherwise it enters `processing`, stops the
camera, performs the request, and on any outcome ends in the `result` step:
a success stores the verdict; a server-reported failure stores a
`LivenessResult` with `isLive := false` and the failure reason/code; a
transport failure only sets the error message. -/
def submitVerification (outcome : SubmitOutcome) (s : LivenessState) :
    LivenessState × Bool :=
  match s.session with
  | none => ({ s with error := some "Tidak ada frame yang di-capture" }, false)
  | some sess =>
      if s.frames.length = 0 then
        ({ s with error := some "Tidak ada frame yang di-capture" }, false)
      else
        let s1 := stopCamera { s with step := .processing }
        match outcome with
        | .success data =>
            ({ s1 with result := some data, step := .result }, true)
        | .serverFailure msg code =>
            ({ s1 with
                result := some
                  { sessionId := sess.sessionId
                    nik := sess.nik
                    method := sess.method.toString
                    isLive := false
                    confidence := 0
                    file := none
                    failureReason := some (msg.getD "Verification failed")
                    errorCode := code }
                step := .result }, true)
        | .networkFailure msg =>
            ({ s1 with
                error := some (msg.getD "Terjadi kesalahan saat verifikasi")
                step := .result }, true)

/-- The initial component state: the `useState` initialisers of the page. -/
def initialState : LivenessState where
  nik := ""
  method := .passive
  session := none
  result := none
  step := .input
  error := none
  cameraReady := false
  countdown := none
  currentChallenge := none
  challengeIndex := 0
  instruction := "Posisikan wajah dalam bingkai oval"
  faceDetected := false
  faceCount := 0
  faceDistance := none
  ovalSize := 60
  borderColor := .white
  isCapturing := false
  streamActive := false
  detectionIntervalActive := false
  frames := []

/-- A face box of 50×50 in a 100×100 frame: `faceRatio = 1/4`. -/
def face0 : BlazePrediction := ⟨(0, 0), (50, 50)⟩

/-- A face box of 60×50 in a 100×100 frame: `faceRatio = 3/10`. -/
def faceB : BlazePrediction := ⟨(0, 0), (60, 50)⟩

/-- A single-face detection tick at ratio `1/4`. -/
def inp0 : DetectInput := ⟨100, 100, [face0]⟩

/-- A single-face detection tick at ratio `3/10`. -/
def inpB : DetectInput := ⟨100, 100, [faceB]⟩

/-- A detection tick observing no faces. -/
def inpNone : DetectInput := ⟨100, 100, []⟩

/-- A detection tick observing two faces. -/
def inpTwo : DetectInput := ⟨100, 100, [face0, faceB]⟩

/-- A concrete passive-method session. -/
def sess0 : LivenessSession where
  sessionId := "sess-1"
  nik := "3275035402950020"
  method := .passive
  challenges := none
  expiresAt := "2026-01-01T00:00:00Z"

/-- A concrete active-method session with challenges `[blink, smile]`. -/
def sessAct : LivenessSession where
  sessionId := "sess-2"
  nik := "3275035402950020"
  method := .active
  challenges := some ["blink", "smile"]
  expiresAt := "2026-01-01T00:00:00Z"

/-- A concrete captured frame. -/
def frame0 : Frame := ⟨1000, none, "data:image/jpeg;base64,xyz"⟩

/-- A capture-phase state with a session and an empty frame buffer. -/
def sEmpty : LivenessState :=
  { initialState with
      session := some sess0
      step := .camera
      cameraReady := true
      streamActive := true
      isCapturing := true
      frames := [] }

/-- A capture-phase state with a session and one captured frame. -/
def sFull : LivenessState :=
  { initialState with
      session := some sess0
      step := .camera
      cameraReady := true
      streamActive := true
      isCapturing := true
      frames := [frame0] }

/-- A concrete successful verdict payload. -/
def res0 : LivenessResult :=
  ⟨"sess-1", "3275035402950020", "passive", true, 985/10,
    some "face-ref", none, none⟩

/-- An environment in which every still capture succeeds. -/
def envAll : CaptureEnv := ⟨fun _ => some "data:image/jpeg;base64,frame"⟩

/-- The good-branch overlay formula in closed linear form. -/
lemma ovalFormula_eq (r : ℚ) :
    60 + (r - 15/100) / (2/10) * 25 = 125 * r + 165/4 := by
  ring

/-- `captureEligible` unfolded to a propositional conjunction. -/
lemma captureEligible_eq_true {s : LivenessState} :
    captureEligible s = true ↔
      s.faceDetected = true ∧ s.faceDistance = some Distance.good ∧
        s.faceCount = 1 := by
  simp [captureEligible, and_assoc]

/-- `detectFace` on zero detections: clear the face flags, keep the rest. -/
lemma detectFace_nil (s : LivenessState) (cw ch : ℚ) :
    detectFace ⟨cw, ch, []⟩ s =
      { s with faceDetected := false, faceCount := 0, faceDistance := none } :=
  rfl

/-- `detectFace` on a single too-far face. -/
lemma detectFace_far (s : LivenessState) (cw ch : ℚ) (face : BlazePrediction)
    (h : faceRatio ⟨cw, ch, [face]⟩ face < 15/100) :
    detectFace ⟨cw, ch, [face]⟩ s =
      { s with instruction := "Terlalu jauh, dekatkan wajah Anda",
               borderColor := .white, faceDetected := true, faceCount := 1,
               faceDistance := some .tooFar, ovalSize := 60 } := by
  simp [detectFace, h]

/-- `detectFace` on a single too-close face. -/
lemma detectFace_close (s : LivenessState) (cw ch : ℚ) (face : BlazePrediction)
    (h : faceRatio ⟨cw, ch, [face]⟩ face > 35/100) :
    detectFace ⟨cw, ch, [face]⟩ s =
      { s with instruction := "Terlalu dekat, mundur sedikit",
               borderColor := .white, faceDetected := true, faceCount := 1,
               faceDistance := some .tooClose, ovalSize := 85 } := by
  have h1 : ¬ faceRatio ⟨cw, ch, [face]⟩ face < 15/100 := by linarith
  simp [detectFace, h1, h]

/-- `detectFace` on a single face at good distance. -/
lemma detectFace_good (s : LivenessState) (cw ch : ℚ) (face : BlazePrediction)
    (hlo : 15/100 ≤ faceRatio ⟨cw, ch, [face]⟩ face)
    (hhi : faceRatio ⟨cw, ch, [face]⟩ face ≤ 35/100) :
    detectFace ⟨cw, ch, [face]⟩ s =
      { s with instruction := "Wajah terdeteksi", borderColor := .green,
               faceDetected := true, faceCount := 1,
               faceDistance := some .good,
               ovalSize :=
                 60 + (faceRatio ⟨cw, ch, [face]⟩ face - 15/100) / (2/10)
                   * 25 } := by
  have h1 : ¬ faceRatio ⟨cw, ch, [face]⟩ face < 15/100 := not_lt.mpr hlo
  have h2 : ¬ faceRatio ⟨cw, ch, [face]⟩ face > 35/100 := not_lt.mpr hhi
  simp [detectFace, h1, h2]

/-- `detectFace` on two or more detections: only `faceCount`, the border
color and the instruction change. -/
lemma detectFace_multi (s : LivenessState) (cw ch : ℚ)
    (f₁ f₂ : BlazePrediction) (rest : List BlazePrediction) :
    detectFace ⟨cw, ch, f₁ :: f₂ :: rest⟩ s =
      { s with faceCount := (f₁ :: f₂ :: rest).length, borderColor := .red,
               instruction := "Pastikan hanya satu wajah dalam bingkai" } :=
  rfl

/-- The concrete good tick `inp0` (ratio `1/4`) evaluated on the initial
state. -/
lemma detectFace_inp0_eval :
    detectFace inp0 initialState =
      { initialState with
          instruction := "Wajah terdeteksi", borderColor := .green,
          faceDetected := true, faceCount := 1, faceDistance := some .good,
          ovalSize := 145/2 } := by
  have hr : faceRatio ⟨100, 100, [face0]⟩ face0 = 1/4 := by
    norm_num [faceRatio, face0]
  have h := detectFace_good initialState 100 100 face0 (by rw [hr]; norm_num)
    (by rw [hr]; norm_num)
  rw [show inp0 = ⟨100, 100, [face0]⟩ from rfl, h, hr]
  norm_num

/-- C8 counterexample: after a good single-face tick (green border,
"Wajah terdeteksi"), a zero-detection tick clears the face flags but leaves
the border green and the instruction unchanged — the claimed
`instruction="no face"` / `colorSignal=Neutral` updates do not happen. -/
theorem claim_C8_counterexample :
    (detectFace inpNone (detectFace inp0 initialState)).faceDetected = false ∧
    (detectFace inpNone (detectFace inp0 initialState)).faceCount = 0 ∧
    (detectFace inpNone (detectFace inp0 initialState)).faceDistance = none ∧
    (detectFace inpNone (detectFace inp0 initialState)).borderColor =
      BorderColor.green ∧
    (detectFace inpNone (detectFace inp0 initialState)).instruction =
      "Wajah terdeteksi" := by
  rw [show inpNone = ⟨100, 100, []⟩ from rfl,
    detectFace_nil (detectFace inp0 initialState) 100 100, detectFace_inp0_eval]
  exact ⟨rfl, rfl, rfl, rfl, rfl⟩

/-- C8 (amended): a zero-detection tick sets `faceDetected=false`,
`faceCount=0`, `distanceClass=Unknown` (`none`) and leaves every other
field — in particular the instruction and the color signal — unchanged. -/
theorem claim_C8 (s : LivenessState) (inp : DetectInput)
    (h : inp.predictions = []) :
    detectFace inp s =
      { s with faceDetected := false, faceCount := 0, faceDistance := none } := by
  obtain ⟨cw, ch, preds⟩ := inp
  simp only at h
  subst h
  rfl

/-- C8 witness: the amended statement evaluated on a concrete
zero-detection tick. -/
theorem claim_C8_witness :
    detectFace inpNone initialState =
      { initialState with
        faceDetected := false, faceCount := 0, faceDistance := none } :=
  claim_C8 initialState inpNone rfl

/-- C9: on a single-face tick, `faceRatio < 0.15` yields TooFar with
overlay 60, white border and the "move closer" instruction;
`faceRatio > 0.35` yields TooClose with overlay 85, white border and the
"move back" instruction; in particular `faceRatio = 0.10` yields TooFar
with overlay 60. -/
theorem claim_C9 (s : LivenessState) (inp : DetectInput)
    (face : BlazePrediction) (h : inp.predictions = [face]) :
    (faceRatio inp face < 15/100 →
      detectFace inp s =
        { s with instruction := "Terlalu jauh, dekatkan wajah Anda",
                 borderColor := .white, faceDetected := true, faceCount := 1,
                 faceDistance := some .tooFar, ovalSize := 60 }) ∧
    (faceRatio inp face > 35/100 →
      detectFace inp s =
        { s with instruction := "Terlalu dekat, mundur sedikit",
                 borderColor := .white, faceDetected := true, faceCount := 1,
                 faceDistance := some .tooClose, ovalSize := 85 }) ∧
    (faceRatio inp face = 1/10 →
      (detectFace inp s).faceDistance = some Distance.tooFar ∧
      (detectFace inp s).ovalSize = 60) := by
  obtain ⟨cw, ch, preds⟩ := inp
  simp only at h
  subst h
  refine ⟨fun hr => detectFace_far s cw ch face hr,
    fun hr => detectFace_close s cw ch face hr, fun hr => ?_⟩
  have h1 : faceRatio ⟨cw, ch, [face]⟩ face < 15/100 := by rw [hr]; norm_num
  rw [detectFace_far s cw ch face h1]
  exact ⟨rfl, rfl⟩

/-- C9 witness: a single-face tick at ratio `1/10` on the initial state
yields TooFar with overlay 60. -/
theorem claim_C9_witness :
    (detectFace ⟨100, 100, [⟨(0, 0), (20, 50)⟩]⟩ initialState).faceDistance =
      some Distance.tooFar ∧
    (detectFace ⟨100, 100, [⟨(0, 0), (20, 50)⟩]⟩ initialState).ovalSize = 60 :=
  (claim_C9 initialState ⟨100, 100, [⟨(0, 0), (20, 50)⟩]⟩ ⟨(0, 0), (20, 50)⟩
    rfl).2.2 (by norm_num [faceRatio])

/-- C10: a tick observing more than one face updates only `faceCount`
(to the number of detections), the color signal (red) and the instruction;
`faceDetected`, `faceDistance` and `ovalSize` keep their previous values. -/
theorem claim_C10 (s : LivenessState) (inp : DetectInput)
    (f₁ f₂ : BlazePrediction) (rest : List BlazePrediction)
    (h : inp.predictions = f₁ :: f₂ :: rest) :
    detectFace inp s =
      { s with faceCount := inp.predictions.length, borderColor := .red,
               instruction := "Pastikan hanya satu wajah dalam bingkai" } ∧
    (detectFace inp s).faceDetected = s.faceDetected ∧
    (detectFace inp s).faceDistance = s.faceDistance ∧
    (detectFace inp s).ovalSize = s.ovalSize := by
  obtain ⟨cw, ch, preds⟩ := inp
  simp only at h
  subst h
  exact ⟨rfl, rfl, rfl, rfl⟩

/-- C10 witness: a two-face tick on a state that had seen a single face
keeps `faceDetected = true` while setting `faceCount = 2` and a red border. -/
theorem claim_C10_witness :
    (detectFace inpTwo { initialState with faceDetected := true }).faceCount
        = 2 ∧
    (detectFace inpTwo { initialState with faceDetected := true }).faceDetected
        = true ∧
    (detectFace inpTwo { initialState with faceDetected := true }).borderColor
        = BorderColor.red := by
  have h := claim_C10 { initialState with faceDetected := true } inpTwo
    face0 faceB [] rfl
  refine ⟨?_, h.2.1.trans rfl, ?_⟩
  · rw [h.1]; rfl
  · rw [h.1]

/-- C1: on a single-face tick with `faceRatio ∈ [0.15, 0.35]` the guidance
becomes Good with `overlaySizePercent = 60 + ((faceRatio − 0.15)/0.20)×25`,
which lies in `[60, 85]` and equals `72.5` at `faceRatio = 0.25`; and the
overlay size is monotonically increasing in the face ratio over that range. -/
theorem claim_C1 :
    (∀ (s : LivenessState) (inp : DetectInput) (face : BlazePrediction),
      inp.predictions = [face] →
      15/100 ≤ faceRatio inp face → faceRatio inp face ≤ 35/100 →
      detectFace inp s =
        { s with instruction := "Wajah terdeteksi", borderColor := .green,
                 faceDetected := true, faceCount := 1,
                 faceDistance := some .good,
                 ovalSize :=
                   60 + (faceRatio inp face - 15/100) / (2/10) * 25 } ∧
      60 ≤ (detectFace inp s).ovalSize ∧ (detectFace inp s).ovalSize ≤ 85 ∧
      (faceRatio inp face = 1/4 → (detectFace inp s).ovalSize = 145/2)) ∧
    (∀ (s₁ s₂ : LivenessState) (inp₁ inp₂ : DetectInput)
        (f₁ f₂ : BlazePrediction),
      inp₁.predictions = [f₁] → inp₂.predictions = [f₂] →
      15/100 ≤ faceRatio inp₁ f₁ → faceRatio inp₁ f₁ ≤ faceRatio inp₂ f₂ →
      faceRatio inp₂ f₂ ≤ 35/100 →
      (detectFace inp₁ s₁).ovalSize ≤ (detectFace inp₂ s₂).ovalSize) := by
  constructor
  · intro s inp face h hlo hhi
    obtain ⟨cw, ch, preds⟩ := inp
    simp only at h hlo hhi
    subst h
    have hd := detectFace_good s cw ch face hlo hhi
    refine ⟨hd, ?_, ?_, ?_⟩
    · rw [hd]
      show (60 : ℚ) ≤ 60 + (faceRatio ⟨cw, ch, [face]⟩ face - 15/100) / (2/10) * 25
      rw [ovalFormula_eq]
      linarith
    · rw [hd]
      show 60 + (faceRatio ⟨cw, ch, [face]⟩ face - 15/100) / (2/10) * 25 ≤ (85 : ℚ)
      rw [ovalFormula_eq]
      linarith
    · intro hq
      rw [hd]
      show 60 + (faceRatio ⟨cw, ch, [face]⟩ face - 15/100) / (2/10) * 25 = (145/2 : ℚ)
      rw [ovalFormula_eq, hq]
      norm_num
  · intro s₁ s₂ inp₁ inp₂ f₁ f₂ h₁ h₂ hlo hmid hhi
    obtain ⟨cw₁, ch₁, preds₁⟩ := inp₁
    obtain ⟨cw₂, ch₂, preds₂⟩ := inp₂
    simp only at h₁ h₂ hlo hmid hhi
    subst h₁; subst h₂
    have hd₁ := detectFace_good s₁ cw₁ ch₁ f₁ hlo (le_trans hmid hhi)
    have hd₂ := detectFace_good s₂ cw₂ ch₂ f₂ (le_trans hlo hmid) hhi
    rw [hd₁, hd₂]
    show 60 + (faceRatio ⟨cw₁, ch₁, [f₁]⟩ f₁ - 15/100) / (2/10) * 25 ≤
      60 + (faceRatio ⟨cw₂, ch₂, [f₂]⟩ f₂ - 15/100) / (2/10) * 25
    rw [ovalFormula_eq, ovalFormula_eq]
    linarith

/-- C1 witness: ratio `1/4` yields Good with overlay `72.5`, and the overlay
at ratio `1/4` is at most the overlay at ratio `3/10`. -/
theorem claim_C1_witness :
    (detectFace inp0 initialState).faceDistance = some Distance.good ∧
    (detectFace inp0 initialState).ovalSize = 145/2 ∧
    (detectFace inp0 initialState).ovalSize ≤
      (detectFace inpB initialState).ovalSize := by
  have h := claim_C1.1 initialState inp0 face0 rfl
    (by norm_num [faceRatio, inp0, face0])
    (by norm_num [faceRatio, inp0, face0])
  refine ⟨by rw [h.1], h.2.2.2 (by norm_num [faceRatio, inp0, face0]), ?_⟩
  exact claim_C1.2 initialState initialState inp0 inpB face0 faceB rfl rfl
    (by norm_num [faceRatio, inp0, face0])
    (by norm_num [faceRatio, inp0, face0, inpB, faceB])
    (by norm_num [faceRatio, inpB, faceB])

/-- C6: from every state, `reset()` yields the Input step with an empty
frame buffer, no session, cleared guidance state (no face detected,
overlay 60, neutral/white color), the detection timer stopped and the
camera released — and a second `reset()` changes nothing (idempotence). -/
theorem claim_C6 (s : LivenessState) :
    (handleReset s).step = Step.input ∧
    (handleReset s).frames = [] ∧
    (handleReset s).session = none ∧
    (handleReset s).result = none ∧
    (handleReset s).faceDetected = false ∧
    (handleReset s).faceCount = 0 ∧
    (handleReset s).faceDistance = none ∧
    (handleReset s).ovalSize = 60 ∧
    (handleReset s).borderColor = BorderColor.white ∧
    (handleReset s).detectionIntervalActive = false ∧
    (handleReset s).streamActive = false ∧
    (handleReset s).cameraReady = false ∧
    (handleReset s).isCapturing = false ∧
    handleReset (handleReset s) = handleReset s := by
  refine ⟨rfl, rfl, rfl, rfl, rfl, rfl, rfl, rfl, rfl, rfl, rfl, rfl, rfl, rfl⟩

/-- C7: with more than one face just observed, the capture-eligibility
predicate is false and `startVerification` (with a session) only sets an
error, leaving everything else unchanged; and a detection tick can
re-establish eligibility only by observing exactly one face at a ratio in
`[0.15, 0.35]`, which classifies as Good. -/
theorem claim_C7 :
    (∀ s : LivenessState, s.faceCount > 1 → captureEligible s = false) ∧
    (∀ (s : LivenessState) (sess : LivenessSession),
      s.session = some sess → s.faceCount > 1 →
      startVerification s =
        { s with
          error := some
            "Pastikan wajah terdeteksi dengan baik dan posisi tepat di tengah" }) ∧
    (∀ (s : LivenessState) (inp : DetectInput),
      captureEligible (detectFace inp s) = true →
      ∃ face, inp.predictions = [face] ∧
        15/100 ≤ faceRatio inp face ∧ faceRatio inp face ≤ 35/100 ∧
        (detectFace inp s).faceDistance = some Distance.good) := by
  have hfalse : ∀ s : LivenessState, s.faceCount > 1 →
      captureEligible s = false := by
    intro s h
    rcases hb : captureEligible s with _ | _
    · rfl
    · exact absurd (captureEligible_eq_true.mp hb).2.2 (by omega)
  refine ⟨hfalse, ?_, ?_⟩
  · intro s sess hs h
    rw [startVerification, hs]
    simp [hfalse s h]
  · intro s inp h
    obtain ⟨cw, ch, preds⟩ := inp
    match preds with
    | [] =>
        rw [detectFace_nil] at h
        exact absurd (captureEligible_eq_true.mp h).1 (by simp)
    | [face] =>
        rcases lt_or_ge (faceRatio ⟨cw, ch, [face]⟩ face) (15/100) with h1 | h1
        · rw [detectFace_far s cw ch face h1] at h
          have := (captureEligible_eq_true.mp h).2.1
          simp at this
        · rcases le_or_lt (faceRatio ⟨cw, ch, [face]⟩ face) (35/100)
            with h2 | h2
          · refine ⟨face, rfl, h1, h2, ?_⟩
            rw [detectFace_good s cw ch face h1 h2]
          · rw [detectFace_close s cw ch face h2] at h
            have := (captureEligible_eq_true.mp h).2.1
            simp at this
    | f₁ :: f₂ :: rest =>
        rw [detectFace_multi] at h
        have := (captureEligible_eq_true.mp h).2.2
        simp at this

/-- C7 witness: concrete two-face state — ineligible, and
`startVerification` only records the error; and the concrete good tick
`inp0` restores eligibility with a single Good-distance face. -/
theorem claim_C7_witness :
    captureEligible
      { initialState with faceCount := 2, session := some sess0 } = false ∧
    startVerification
      { initialState with faceCount := 2, session := some sess0 } =
      { initialState with
          faceCount := 2, session := some sess0,
          error := some
            "Pastikan wajah terdeteksi dengan baik dan posisi tepat di tengah" } ∧
    (detectFace inp0 initialState).faceDistance = some Distance.good := by
  refine ⟨claim_C7.1 _ (by decide), ?_, ?_⟩
  · exact claim_C7.2.1 _ _ rfl (by decide)
  · obtain ⟨face, -, -, -, hgood⟩ := claim_C7.2.2 initialState inp0 (by
      rw [detectFace_inp0_eval]
      rfl)
    exact hgood

/-- C2 counterexample: with a session, an empty frame buffer and the state
machine in the capture step, `submitVerification` sets the error and makes
no request, but the step stays `camera` — it does not route to `Result`
as claimed. -/
theorem claim_C2_counterexample :
    (submitVerification (SubmitOutcome.success res0) sEmpty).1.step =
      Step.camera ∧
    (submitVerification (SubmitOutcome.success res0) sEmpty).1.step ≠
      Step.result ∧
    (submitVerification (SubmitOutcome.success res0) sEmpty).2 = false ∧
    (submitVerification (SubmitOutcome.success res0) sEmpty).1.error =
      some "Tidak ada frame yang di-capture" := by
  refine ⟨rfl, ?_, rfl, rfl⟩
  intro h
  simp [submitVerification, sEmpty] at h

/-- C2 (amended): an empty frame buffer at submission time aborts the
attempt without any remote submission request and sets an error, but the
state machine keeps its current step instead of routing to `Result`. -/
theorem claim_C2 (s : LivenessState) (outcome : SubmitOutcome)
    (h : s.frames = []) :
    submitVerification outcome s =
      ({ s with error := some "Tidak ada frame yang di-capture" }, false) := by
  rcases hs : s.session with _ | sess
  · simp [submitVerification, hs]
  · simp [submitVerification, hs, h]

/-- C2 witness: the amended statement evaluated on the concrete
empty-buffer state. -/
theorem claim_C2_witness :
    submitVerification (SubmitOutcome.success res0) sEmpty =
      ({ sEmpty with error := some "Tidak ada frame yang di-capture" },
        false) :=
  claim_C2 sEmpty (SubmitOutcome.success res0) rfl

/-- C3 counterexample: with a session and a non-empty buffer, a transport
failure of the submit call ends in the `result` step but produces no
`VerificationResult`-shaped value at all (`result = none`) — only an error
message — contradicting the claim that any such failure surfaces as a
result value with `isLive=false`. -/
theorem claim_C3_counterexample :
    (submitVerification (SubmitOutcome.networkFailure none) sFull).1.step =
      Step.result ∧
    (submitVerification (SubmitOutcome.networkFailure none) sFull).1.result =
      none ∧
    (submitVerification (SubmitOutcome.networkFailure none) sFull).1.error =
      some "Terjadi kesalahan saat verifikasi" := by
  refine ⟨?_, ?_, ?_⟩ <;>
    simp [submitVerification, sFull, stopCamera, frame0, initialState]

/-- C3 (amended): with a session and a non-empty frame buffer, every
submission outcome ends the flow in the `Result` state with the request
actually issued; a server-reported failure surfaces as a
`VerificationResult`-shaped value with `isLive=false`, the failure reason
populated and the server's error code carried over; a transport failure
leaves the result value untouched and surfaces only as an error message. -/
theorem claim_C3 (s : LivenessState) (sess : LivenessSession)
    (outcome : SubmitOutcome) (hs : s.session = some sess)
    (hf : s.frames ≠ []) :
    (submitVerification outcome s).1.step = Step.result ∧
    (submitVerification outcome s).2 = true ∧
    (∀ msg code, outcome = .serverFailure msg code →
      (submitVerification outcome s).1.result = some
        { sessionId := sess.sessionId, nik := sess.nik,
          method := sess.method.toString, isLive := false, confidence := 0,
          file := none, failureReason := some (msg.getD "Verification failed"),
          errorCode := code }) ∧
    (∀ msg, outcome = .networkFailure msg →
      (submitVerification outcome s).1.result = s.result ∧
      (submitVerification outcome s).1.error =
        some (msg.getD "Terjadi kesalahan saat verifikasi")) := by
  have hlen : ¬ s.frames.length = 0 := by
    simpa [List.length_eq_zero] using hf
  cases outcome with
  | success data =>
      refine ⟨?_, ?_, fun _ _ h => SubmitOutcome.noConfusion h,
        fun _ h => SubmitOutcome.noConfusion h⟩ <;>
        simp [submitVerification, hs, hlen, stopCamera]
  | serverFailure msg code =>
      refine ⟨?_, ?_, ?_, fun _ h => SubmitOutcome.noConfusion h⟩
      · simp [submitVerification, hs, hlen, stopCamera]
      · simp [submitVerification, hs, hlen, stopCamera]
      · intro msg' code' h
        injection h with h1 h2
        subst h1
        subst h2
        simp [submitVerification, hs, hlen, stopCamera]
  | networkFailure msg =>
      refine ⟨?_, ?_, fun _ _ h => SubmitOutcome.noConfusion h, ?_⟩
      · simp [submitVerification, hs, hlen, stopCamera]
      · simp [submitVerification, hs, hlen, stopCamera]
      · intro msg' h
        injection h with h1
        subst h1
        constructor <;> simp [submitVerification, hs, hlen, stopCamera]

/-- C3 witness: the amended statement evaluated on the concrete one-frame
state under a transport failure. -/
theorem claim_C3_witness :
    (submitVerification (SubmitOutcome.networkFailure none) sFull).1.step =
      Step.result ∧
    (submitVerification (SubmitOutcome.networkFailure none) sFull).2 = true ∧
    (submitVerification (SubmitOutcome.networkFailure none) sFull).1.error =
      some "Terjadi kesalahan saat verifikasi" := by
  have h := claim_C3 sFull sess0 (SubmitOutcome.networkFailure none) rfl
    (by simp [sFull])
  exact ⟨h.1, h.2.1, (h.2.2.2 none rfl).2⟩

/-- Invariant of the passive capture loop when every capture succeeds:
`n` frames, all untagged, timestamps spaced 400 ms starting at `t`, and
the loop ends at `t + 400·n`. -/
lemma passiveCaptureLoop_ok (env : CaptureEnv)
    (h : ∀ u, (env.capture u).isSome) :
    ∀ (n t : ℕ),
      (passiveCaptureLoop env t n).1.length = n ∧
      (passiveCaptureLoop env t n).1.map Frame.action =
        List.replicate n none ∧
      (passiveCaptureLoop env t n).1.map Frame.timestamp =
        (List.range n).map (fun i => t + 400 * i) ∧
      (passiveCaptureLoop env t n).2 = t + 400 * n := by
  intro n
  induction n with
  | zero => exact fun t => ⟨rfl, rfl, rfl, by simp [passiveCaptureLoop]⟩
  | succ n ih =>
      intro t
      obtain ⟨img, himg⟩ := Option.isSome_iff_exists.mp (h t)
      have hcap : captureFrame env t none = some ⟨t, none, img⟩ := by
        simp [captureFrame, himg]
      have hred : passiveCaptureLoop env t (n + 1) =
          (Frame.mk t none img :: (passiveCaptureLoop env (t + 400) n).1,
            (passiveCaptureLoop env (t + 400) n).2) := by
        simp [passiveCaptureLoop, hcap]
      obtain ⟨ih1, ih2, ih3, ih4⟩ := ih (t + 400)
      have hr : (List.range (n + 1)).map (fun i => t + 400 * i) =
          t :: (List.range n).map (fun i => t + 400 + 400 * i) := by
        rw [List.range_succ_eq_map, List.map_cons, List.map_map]
        refine congrArg₂ List.cons (by norm_num) (List.map_congr_left ?_)
        intro i _
        simp [Function.comp]
        ring
      rw [hred]
      refine ⟨by simp [ih1], by simp [ih2, List.replicate_succ], ?_,
        by rw [ih4]; ring⟩
      rw [List.map_cons, ih3, hr]

/-- C4: an uninterrupted passive run in which every still capture succeeds
yields exactly 5 frames, none tagged, at 400 ms spacing (timestamps
`t, t+400, …, t+1600`), with the loop completing 2.0 s after it starts. -/
theorem claim_C4 (env : CaptureEnv) (t : ℕ)
    (h : ∀ u, (env.capture u).isSome) :
    (runPassiveVerification env t).1.length = 5 ∧
    (runPassiveVerification env t).1.map Frame.action =
      List.replicate 5 none ∧
    (runPassiveVerification env t).1.map Frame.timestamp =
      [t, t + 400, t + 800, t + 1200, t + 1600] ∧
    (runPassiveVerification env t).2 = t + 2000 := by
  obtain ⟨h1, h2, h3, h4⟩ := passiveCaptureLoop_ok env h 5 t
  refine ⟨h1, h2, ?_, by rw [runPassiveVerification, h4]⟩
  rw [runPassiveVerification, h3,
    show List.range 5 = [0, 1, 2, 3, 4] from rfl]
  norm_num

/-- C4 witness: the passive run under an always-succeeding capture
environment, started at time 0. -/
theorem claim_C4_witness :
    (runPassiveVerification envAll 0).1.length = 5 ∧
    (runPassiveVerification envAll 0).1.map Frame.action =
      List.replicate 5 none ∧
    (runPassiveVerification envAll 0).1.map Frame.timestamp =
      [0, 400, 800, 1200, 1600] ∧
    (runPassiveVerification envAll 0).2 = 2000 :=
  claim_C4 envAll 0 (fun _ => rfl)

/-- Invariant of the active challenge loop when every capture succeeds:
one frame per challenge, in order, tagged with the challenge, each captured
2.5 s after its prompt (timestamps `t + 2500·(i+1)`), ending at
`t + 2500·|cs|`. -/
lemma activeCaptureLoop_ok (env : CaptureEnv)
    (h : ∀ u, (env.capture u).isSome) :
    ∀ (cs : List String) (t : ℕ),
      (activeCaptureLoop env t cs).1.length = cs.length ∧
      (activeCaptureLoop env t cs).1.map Frame.action = cs.map some ∧
      (activeCaptureLoop env t cs).1.map Frame.timestamp =
        (List.range cs.length).map (fun i => t + 2500 * (i + 1)) ∧
      (activeCaptureLoop env t cs).2 = t + 2500 * cs.length := by
  intro cs
  induction cs with
  | nil => exact fun t => ⟨rfl, rfl, rfl, by simp [activeCaptureLoop]⟩
  | cons c cs ih =>
      intro t
      obtain ⟨img, himg⟩ := Option.isSome_iff_exists.mp (h (t + 2500))
      have hcap : captureFrame env (t + 2500) (some c) =
          some ⟨t + 2500, some c, img⟩ := by
        simp [captureFrame, himg]
      have hred : activeCaptureLoop env t (c :: cs) =
          (Frame.mk (t + 2500) (some c) img ::
              (activeCaptureLoop env (t + 2500) cs).1,
            (activeCaptureLoop env (t + 2500) cs).2) := by
        simp [activeCaptureLoop, hcap]
      obtain ⟨ih1, ih2, ih3, ih4⟩ := ih (t + 2500)
      have hr : (List.range (c :: cs).length).map
            (fun i => t + 2500 * (i + 1)) =
          (t + 2500) ::
            (List.range cs.length).map (fun i => t + 2500 + 2500 * (i + 1)) := by
        rw [List.length_cons, List.range_succ_eq_map, List.map_cons,
          List.map_map]
        refine congrArg₂ List.cons (by norm_num) (List.map_congr_left ?_)
        intro i _
        simp [Function.comp]
        ring
      rw [hred]
      refine ⟨by simp [ih1], by simp [ih2], ?_, ?_⟩
      · rw [List.map_cons, ih3, hr]
      · rw [ih4, List.length_cons]
        ring

/-- C5: an uninterrupted active run over the session's challenge list in
which every capture succeeds yields exactly one frame per challenge, in
session order, tagged with the challenge identifier, each captured 2.5 s
after its instruction is shown; with challenges `[blink, smile]` the buffer
is exactly 2 frames tagged blink then smile. -/
theorem claim_C5 (env : CaptureEnv) (t : ℕ) (challenges : List String)
    (h : ∀ u, (env.capture u).isSome) :
    (runActiveVerification env t challenges).1.length = challenges.length ∧
    (runActiveVerification env t challenges).1.map Frame.action =
      challenges.map some ∧
    (runActiveVerification env t challenges).1.map Frame.timestamp =
      (List.range challenges.length).map (fun i => t + 2500 * (i + 1)) ∧
    (runActiveVerification env t challenges).2 =
      t + 2500 * challenges.length := by
  obtain ⟨h1, h2, h3, h4⟩ := activeCaptureLoop_ok env h challenges t
  exact ⟨h1, h2, h3, h4⟩

/-- C5 witness: the active run over the challenge list of `sessAct`
(`[blink, smile]`) under an always-succeeding capture environment:
exactly 2 frames, tagged blink then smile, at 2500 and 5000 ms. -/
theorem claim_C5_witness :
    (runActiveVerification envAll 0 ["blink", "smile"]).1.length = 2 ∧
    (runActiveVerification envAll 0 ["blink", "smile"]).1.map Frame.action =
      [some "blink", some "smile"] ∧
    (runActiveVerification envAll 0 ["blink", "smile"]).1.map
      Frame.timestamp = [2500, 5000] := by
  have h := claim_C5 envAll 0 ["blink", "smile"] (fun _ => rfl)
  refine ⟨h.1, h.2.1, ?_⟩
  rw [h.2.2.1]
  rfl

end Liveness
